import Mathlib

/-!
Verification of the Resonance repository against its specification.

The repository contains:
* `src/resonance.c` — `resonance_add` and `resonance_version_string`;
* `src/main.c` — the demonstration entry point;
* `tests/entry.c` — the smoke-test entry point.

The spec additionally describes a "nexus" seeded random generator
(`deriveSeed` / `nextInteger`) and a "blaze" multiplication stub whose
implementations are not part of the source tree here; those are modelled
from the spec's words and marked as such.
-/

namespace Resonance

/-- The C library function from `src/resonance.c`: returns `a + b`. -/
def resonance_add (a b : Int) : Int := a + b

/-- The C library function from `src/resonance.c`: returns a pointer to the
constant string literal. A `const char*` result is modelled as `Option String`,
with `none` standing for a NULL pointer; the function always returns the
string `0.0.0`. -/
def resonance_version_string : Option String := some "0.0.0"

/-- Modelled from the spec: the "blaze" stub library (its implementation is
not under the source tree; only `main.c` calls it through `blaze/blaze.h`)
provides integer multiplication: `blaze_int_multiply(a, b)` returns `a * b`. -/
def blaze_int_multiply (a b : Int) : Int := a * b

/-- `EXIT_SUCCESS` from `stdlib.h`. -/
def EXIT_SUCCESS : Int := 0

/-- `EXIT_FAILURE` from `stdlib.h`. -/
def EXIT_FAILURE : Int := 1

/-- The observable outcome of a process run: exit status, lines written to
standard output, lines written to standard error. -/
structure ProcResult where
  exitCode : Int
  stdout : List String
  stderr : List String
deriving DecidableEq, Repr

/-- The test entry point `main` of `tests/entry.c`, parameterised by the
implementations it links against. It starts with `ok = 1`; if
`resonance_add(2, 3) != 5` it writes a diagnostic to stderr and clears `ok`;
if `resonance_version_string() == NULL` it writes a diagnostic to stderr and
clears `ok`; then it returns `EXIT_FAILURE` when `ok` was cleared, and
otherwise prints `basic test passed` and returns `EXIT_SUCCESS`. -/
def testMain (add : Int → Int → Int) (version : Option String) : ProcResult :=
  let errs := (if add 2 3 = 5 then [] else ["add(2,3) != 5"]) ++
              (if version = none then ["version_string() returned NULL"] else [])
  if add 2 3 = 5 ∧ version ≠ none then
    { exitCode := EXIT_SUCCESS, stdout := ["basic test passed"], stderr := errs }
  else
    { exitCode := EXIT_FAILURE, stdout := [], stderr := errs }

/-- The demonstration entry point `main` of `src/main.c`: it takes no
arguments, prints three lines (greeting, the version string, the blaze
product of 5 and 5) to standard output, and returns 0. -/
def demoMain : ProcResult :=
  { exitCode := 0
    stdout := ["[resonance] Hello from demo app!",
               "[resonance] version = " ++ (resonance_version_string.getD ""),
               "[blaze] multiply (5, 5) = " ++ toString (blaze_int_multiply 5 5)]
    stderr := [] }

/-- Modelled from the spec: one FNV-1a step over a single byte, with the
32-bit state kept reduced modulo `2 ^ 32`. -/
def fnv1aStep (h b : Nat) : Nat := ((h ^^^ (b % 256)) * 16777619) % 2 ^ 32

/-- Modelled from the spec: the FNV-1a hash of a byte sequence, starting from
the 32-bit offset basis 2166136261. -/
def fnv1a (bytes : List Nat) : Nat := bytes.foldl fnv1aStep 2166136261

/-- The code points of a token, used as the byte stream fed to the hash. -/
def tokenBytes (t : String) : List Nat := t.data.map Char.toNat

/-- Modelled from the spec: the default seed `D0` produced for an absent
token; with an absent token treated as the empty token, it is the FNV-1a
offset basis. -/
def D0 : Nat := 2166136261

/-- Modelled from the spec: `deriveSeed` (the nexus seed-derivation function,
whose implementation is absent from the source tree) produces a 32-bit
unsigned seed as a stable hash of the token bytes, with an absent token
treated as the empty token so that it yields the fixed default `D0`. -/
def deriveSeed (token : Option String) : Nat := fnv1a (tokenBytes (token.getD ""))

/-- Modelled from the spec: first splitmix-style step — add the golden-ratio
increment to the seed, modulo `2 ^ 32`. -/
def mixA (seed : Nat) : Nat := (seed % 2 ^ 32 + 2654435769) % 2 ^ 32

/-- Modelled from the spec: second splitmix-style step — xor-shift by 16 and
multiply, modulo `2 ^ 32`. -/
def mixB (z : Nat) : Nat := ((z ^^^ (z >>> 16)) * 569420461) % 2 ^ 32

/-- Modelled from the spec: third splitmix-style step — xor-shift by 15 and
multiply, modulo `2 ^ 32`. -/
def mixB2 (z : Nat) : Nat := ((z ^^^ (z >>> 15)) * 1935289751) % 2 ^ 32

/-- Modelled from the spec: final splitmix-style step — xor-shift by 15,
modulo `2 ^ 32`. -/
def mixC (z : Nat) : Nat := (z ^^^ (z >>> 15)) % 2 ^ 32

/-- Modelled from the spec: `nextInteger` (the nexus generation function,
whose implementation is absent from the source tree) applies a fixed
deterministic splitmix32-style mixing transformation to its seed. -/
def nextInteger (seed : Nat) : Nat := mixC (mixB2 (mixB (mixA seed)))

lemma fnv1a_foldl_lt (l : List Nat) :
    ∀ h : Nat, h < 2 ^ 32 → List.foldl fnv1aStep h l < 2 ^ 32 := by
  induction l with
  | nil => intro h hh; simpa using hh
  | cons b l ih =>
      intro h _
      exact ih (fnv1aStep h b) (Nat.mod_lt _ (by norm_num))

end Resonance

namespace Resonance

/-- Claim C1: for every token, `deriveSeed` is a pure deterministic function of
the token alone, returning the same 32-bit unsigned seed on every call. -/
theorem deriveSeed_deterministic (t : Option String) :
    deriveSeed t = deriveSeed t ∧ deriveSeed t < 2 ^ 32 :=
  ⟨rfl, fnv1a_foldl_lt _ _ (by norm_num)⟩

/-- Claim C2: `deriveSeed` is total over its optional-string input; for an
absent token and for the empty token it does not fail and returns the one
fixed default seed value `D0`. -/
theorem deriveSeed_default :
    deriveSeed none = D0 ∧ deriveSeed (some "") = D0 := ⟨rfl, rfl⟩

/-- Claim C3: `nextInteger` is a pure, stateless, total function of its seed
argument alone, returning the same 32-bit unsigned output on every call. -/
theorem nextInteger_deterministic (s : Nat) :
    nextInteger s = nextInteger s ∧ nextInteger s < 2 ^ 32 := by
  refine ⟨rfl, ?_⟩
  unfold nextInteger mixC
  exact Nat.mod_lt _ (by norm_num)

/-- Claim C4: `resonance_version_string` is a constant accessor returning the
string `0.0.0`, and in particular never returns a NULL result. -/
theorem resonance_version_string_constant :
    resonance_version_string = some "0.0.0" ∧ resonance_version_string ≠ none :=
  ⟨rfl, by decide⟩

/-- Claim C5: for all integers `a` and `b`, `resonance_add a b` returns the
sum `a + b`. -/
theorem resonance_add_spec (a b : Int) : resonance_add a b = a + b := rfl

/-- Claim C6: the test entry point returns `EXIT_FAILURE` exactly when
`add 2 3 ≠ 5` or the version string is NULL, writes the matching diagnostic
to stderr for each failing check, and otherwise prints `basic test passed`
with `EXIT_SUCCESS` and an empty stderr. -/
theorem testMain_characterization (add : Int → Int → Int) (version : Option String) :
    ((testMain add version).exitCode = EXIT_FAILURE ↔ (add 2 3 ≠ 5 ∨ version = none))
    ∧ ("add(2,3) != 5" ∈ (testMain add version).stderr ↔ add 2 3 ≠ 5)
    ∧ ("version_string() returned NULL" ∈ (testMain add version).stderr ↔ version = none)
    ∧ (testMain add version =
        { exitCode := EXIT_SUCCESS, stdout := ["basic test passed"], stderr := [] }
       ↔ (add 2 3 = 5 ∧ version ≠ none)) := by
  by_cases h1 : add 2 3 = 5 <;> cases version <;>
    simp [testMain, EXIT_FAILURE, EXIT_SUCCESS, h1, ProcResult.mk.injEq]

/-- Claim C7: the demonstration entry point takes no arguments, prints the
derived value to standard output among its three output lines, writes nothing
to stderr, and exits with status 0 unconditionally. -/
theorem demoMain_spec :
    demoMain.exitCode = 0
    ∧ demoMain.stdout = ["[resonance] Hello from demo app!",
        "[resonance] version = 0.0.0",
        "[blaze] multiply (5, 5) = 25"]
    ∧ demoMain.stderr = [] := by
  refine ⟨rfl, ?_, rfl⟩
  decide

/-- Claim C8: the blaze stub library provides integer multiplication — for all
integers `a` and `b`, `blaze_int_multiply a b = a * b` — and in particular the
demo call on 5 and 5 yields 25. -/
theorem blaze_int_multiply_spec (a b : Int) :
    blaze_int_multiply a b = a * b ∧ blaze_int_multiply 5 5 = 25 := ⟨rfl, rfl⟩

/-- Claim C9: `resonance_add` is commutative and has 0 as a right identity. -/
theorem resonance_add_comm_id (a b : Int) :
    resonance_add a b = resonance_add b a ∧ resonance_add a 0 = a :=
  ⟨Int.add_comm a b, Int.add_zero a⟩

/-- Claim C10: under the actual resonance implementation both smoke-test
checks pass, so the test entry point prints `basic test passed`, returns
`EXIT_SUCCESS`, and writes nothing to stderr. -/
theorem testMain_passes :
    resonance_add 2 3 = 5
    ∧ resonance_version_string ≠ none
    ∧ testMain resonance_add resonance_version_string =
        { exitCode := EXIT_SUCCESS, stdout := ["basic test passed"], stderr := [] } := by
  refine ⟨rfl, by decide, ?_⟩
  decide

end Resonance
